import Mathlib

/-!
Verification of the ACORD extraction service (src/app.py, src/main.py).

The repository is a request/response glue service: it accepts an uploaded
PDF, extracts its text with pypdf, sends the text to an LLM completion
endpoint with a fixed prompt, and relays the parsed JSON result.

We give a shallow embedding of the repository's own logic as pure Lean
functions.  External library calls (pypdf's PdfReader/page.extract_text,
the OpenAI client call, Python's json.loads) are modelled as abstract
function parameters: the repository code only composes their results, so
each claim is proved for every behaviour of those externals unless the
claim itself fixes one (a stubbed completion service, say).

Machine-level conventions:
* Python strings are modelled as Lean String / List Char (Python slicing
  is by code point, matching List Char indexing).
* Python byte strings are modelled as List Nat (only their length is ever
  inspected by the code under verification).
* Python dicts (JSON objects) are modelled as association lists in
  insertion order, matching CPython's ordered dicts; json.loads produces
  unique keys, and dict membership/assignment is modelled by List.lookup
  and appending, which agrees with CPython for unique keys.
-/

/-- JSON values, the shape of what json.loads returns and what the
endpoint relays.  Objects are insertion-ordered association lists. -/
inductive Json where
  | null : Json
  | boolean : Bool → Json
  | num : Int → Json
  | str : String → Json
  | arr : List Json → Json
  | obj : List (String × Json) → Json

/-- Embedding of app.py chunk_text:
`def chunk_text(text, size=3000): return [text[i:i+size] for i in range(0, len(text), size)]`.
Python's range(0, len(text), size) enumerates ceil(len(text)/size) start
indices (for size > 0), written (len + size - 1) / size in Nat division;
text[i:i+size] is (text.drop i).take size on code points. -/
def chunk_text (text : List Char) (size : Nat) : List (List Char) :=
  (List.range' 0 ((text.length + size - 1) / size) size).map
    (fun i => (text.drop i).take size)

/-- The default chunk size hard-coded in app.py (`size=3000`). -/
def CHUNK_SIZE : Nat := 3000

theorem range'_map_add (a s n step : Nat) :
    List.range' (s + a) n step = (List.range' s n step).map (fun i => i + a) := by
  induction n generalizing s with
  | zero => simp
  | succ n ih =>
      rw [List.range'_succ, List.range'_succ, List.map_cons]
      have h1 : s + a + step = s + step + a := by omega
      rw [h1, ih (s + step)]

theorem chunk_text_nil (size : Nat) : chunk_text [] size = [] := by
  unfold chunk_text
  rcases Nat.eq_zero_or_pos size with h | h
  · subst h; simp
  · have : (List.length ([] : List Char) + size - 1) / size = 0 :=
      Nat.div_eq_of_lt (by simp; omega)
    rw [this]; simp

theorem chunk_text_cons {size : Nat} (hs : 0 < size) (text : List Char) (ht : text ≠ []) :
    chunk_text text size = text.take size :: chunk_text (text.drop size) size := by
  have hlen : 0 < text.length := List.length_pos.mpr ht
  have hcount : (text.length + size - 1) / size
      = ((text.drop size).length + size - 1) / size + 1 := by
    rw [List.length_drop]
    rcases le_or_lt text.length size with h | h
    · have h1 : text.length - size = 0 := by omega
      rw [h1]
      have h2 : (0 + size - 1) / size = 0 := Nat.div_eq_of_lt (by omega)
      have h3 : text.length + size - 1 = (text.length - 1) + size := by omega
      rw [h2, h3, Nat.add_div_right _ hs]
      have h4 : (text.length - 1) / size = 0 := Nat.div_eq_of_lt (by omega)
      rw [h4]
    · have h2 : text.length - size + size - 1 = (text.length - size - 1) + size := by omega
      have h3 : text.length + size - 1 = (text.length - 1) + size := by omega
      rw [h2, h3, Nat.add_div_right _ hs, Nat.add_div_right _ hs]
      have h4 : text.length - 1 = (text.length - size - 1) + size := by omega
      rw [h4, Nat.add_div_right _ hs]
  show (List.range' 0 ((text.length + size - 1) / size) size).map
      (fun i => (text.drop i).take size)
    = text.take size :: chunk_text (text.drop size) size
  rw [hcount, List.range'_succ, List.map_cons]
  have hshift : List.range' (0 + size) (((text.drop size).length + size - 1) / size) size
      = (List.range' 0 (((text.drop size).length + size - 1) / size) size).map
          (fun i => i + size) :=
    range'_map_add size 0 _ size
  rw [hshift, List.map_map, List.drop_zero]
  congr 1
  show _ = chunk_text (text.drop size) size
  unfold chunk_text
  apply List.map_congr_left
  intro i _
  simp only [Function.comp_apply]
  rw [List.drop_drop, Nat.add_comm i size]

theorem chunk_text_flatten {size : Nat} (hs : 0 < size) (text : List Char) :
    (chunk_text text size).flatten = text := by
  by_cases ht : text = []
  · subst ht; rw [chunk_text_nil]; rfl
  · rw [chunk_text_cons hs text ht, List.flatten_cons,
      chunk_text_flatten hs (text.drop size), List.take_append_drop]
termination_by text.length
decreasing_by
  have := List.length_pos.mpr ht
  simp only [List.length_drop]
  omega

theorem chunk_text_ne_nil {size : Nat} (hs : 0 < size) (text : List Char) :
    ∀ c ∈ chunk_text text size, c ≠ [] := by
  by_cases ht : text = []
  · subst ht; rw [chunk_text_nil]; intro c hc; cases hc
  · rw [chunk_text_cons hs text ht]
    intro c hc
    rcases List.mem_cons.mp hc with h | h
    · subst h
      have hlen : 0 < text.length := List.length_pos.mpr ht
      have : 0 < (text.take size).length := by
        rw [List.length_take]; omega
      exact List.length_pos.mp this
    · exact chunk_text_ne_nil hs (text.drop size) c h
termination_by text.length
decreasing_by
  have := List.length_pos.mpr ht
  simp only [List.length_drop]
  omega

theorem chunk_text_eq_nil_iff {size : Nat} (hs : 0 < size) (text : List Char) :
    chunk_text text size = [] ↔ text = [] := by
  constructor
  · intro h
    by_contra ht
    rw [chunk_text_cons hs text ht] at h
    exact List.cons_ne_nil _ _ h
  · intro h; subst h; exact chunk_text_nil size

theorem chunk_text_dropLast_length {size : Nat} (hs : 0 < size) (text : List Char) :
    ∀ c ∈ (chunk_text text size).dropLast, c.length = size := by
  by_cases ht : text = []
  · subst ht; rw [chunk_text_nil]; intro c hc; cases hc
  · rw [chunk_text_cons hs text ht]
    by_cases hd : text.drop size = []
    · rw [hd, chunk_text_nil]
      intro c hc; cases hc
    · have htail : chunk_text (text.drop size) size ≠ [] :=
        fun h => hd ((chunk_text_eq_nil_iff hs _).mp h)
      obtain ⟨b, l, hb⟩ := List.exists_cons_of_ne_nil htail
      rw [hb, List.dropLast_cons₂]
      intro c hc
      rcases List.mem_cons.mp hc with h | h
      · subst h
        have hgt : size < text.length := by
          have := List.length_pos.mpr hd
          rw [List.length_drop] at this
          omega
        rw [List.length_take]; omega
      · rw [← hb] at h
        exact chunk_text_dropLast_length hs (text.drop size) c h
termination_by text.length
decreasing_by
  have := List.length_pos.mpr ht
  simp only [List.length_drop]
  omega

/-- Embedding of app.py extract_text_from_pdf (and the identical loop in
main.py): iterates over the reader's pages, and for each page whose
extract_text() result is truthy appends it plus a newline.  The external
pypdf reader is abstracted away: `pages` is the list of per-page
extract_text() results, with the empty string standing for a page that
yielded nothing (Python treats both None and the empty string as falsy,
and both contribute nothing). -/
def extract_text_from_pdf (pages : List String) : String :=
  pages.foldl (fun text extracted =>
    if extracted ≠ "" then text ++ extracted ++ "\n" else text) ""

/-- ASCII whitespace recognised by Python str.strip() with no arguments
(the model restricts to the ASCII range; the pipeline only ever tests
strings against emptiness after stripping). -/
def pyIsSpace (c : Char) : Bool :=
  c = ' ' || c = '\t' || c = '\n' || c = '\r' || c = '\x0b' || c = '\x0c'

/-- Model of Python str.strip(): remove leading and trailing whitespace.
The code only uses it as `if not text.strip()`, i.e. the test
`pyStrip text = ""` (text is empty or whitespace-only). -/
def pyStrip (s : String) : String :=
  String.mk (((s.data.dropWhile pyIsSpace).reverse.dropWhile pyIsSpace).reverse)

/-- Join of the chunks as performed by app.py line 205:
`combined_text = "\n".join(chunks)` applied to `chunks = chunk_text(text)`
(default chunk size 3000). -/
def combined_text (text : String) : String :=
  String.mk (List.intercalate ['\n'] (chunk_text text.data CHUNK_SIZE))

/-- The fixed system message of app.py extract_json_from_text. -/
def SYSTEM_MESSAGE : String := "You are a strict JSON extraction engine."

/-- The fixed extraction prompt of app.py extract_json_from_text
(braces of the schema written as \x7b / \x7d escapes). -/
def PROMPT : String :=
  "\nYou are an expert insurance ACORD 130 (Workers Compensation) extraction engine.\n\nReturn STRICT valid JSON only.\n\nSchema:\n\x7b\n  \"agency_information\": \x7b\n    \"agency_name\": string | null,\n    \"agency_address\": string | null,\n    \"producer_name\": string | null\n  \x7d,\n  \"applicant_information\": \x7b\n    \"applicant_name\": string | null,\n    \"entity_type\": string | null,\n    \"mailing_address\": string | null,\n    \"phone\": string | null,\n    \"email\": string | null\n  \x7d,\n  \"policy_information\": \x7b\n    \"effective_date\": string | null,\n    \"expiration_date\": string | null,\n    \"state\": string | null,\n    \"financed\": boolean | null\n  \x7d,\n  \"limits\": \x7b\n    \"each_accident\": string | null,\n    \"disease_policy_limit\": string | null,\n    \"disease_each_employee\": string | null\n  \x7d,\n  \"locations\": [\n    \x7b\n      \"location_number\": string | null,\n      \"address\": string | null\n    \x7d\n  ],\n  \"rating_information\": [\n    \x7b\n      \"class_code\": string | null,\n      \"description\": string | null,\n      \"number_of_employees\": string | null,\n      \"estimated_payroll\": string | null\n    \x7d\n  ],\n  \"owners_officers\": [\n    \x7b\n      \"name\": string | null,\n      \"dob\": string | null,\n      \"title\": string | null,\n      \"ownership_percent\": string | null,\n      \"class_code\": string | null,\n      \"payroll\": string | null\n    \x7d\n  ],\n  \"nature_of_business\": string | null,\n  \"general_information\": \x7b\n    \"questions\": [\n      \x7b\n        \"question_number\": integer,\n        \"answer\": \"Y\" | \"N\" | null\n      \x7d\n    ]\n  \x7d\n\x7d\n\nIf value not found, return null.\n"

/-- The two chat messages sent to the completion service (role, content),
as built in app.py lines 150-153. -/
def build_messages (text : String) : List (String × String) :=
  [("system", SYSTEM_MESSAGE), ("user", PROMPT ++ "\n\nDocument Text:\n" ++ text)]

/-- Embedding of app.py extract_json_from_text.  The external pieces are
parameters: `complete` models the OpenAI chat-completion call (returning
the raw text content of the first choice, or failing with an upstream
error), and `json_loads` models Python json.loads (a parsed Json value,
or a JSONDecodeError message).  The repository code simply composes them:
`return json.loads(response.choices[0].message.content)`.  A raised
exception is modelled as Except.error and propagates to the caller. -/
def extract_json_from_text (complete : List (String × String) → Except String String)
    (json_loads : String → Except String Json) (text : String) : Except String Json :=
  match complete (build_messages text) with
  | Except.error e => Except.error e
  | Except.ok content => json_loads content

/-- HTTP-level outcome of one request to POST /extract-acord.
`success` is the 200 envelope with "status": "success", the request id and
the relayed data; `httpError` is a raised HTTPException carrying a status
code and detail message (the framework renders the body); `jsonError` is
an explicit JSONResponse with a status code and a body holding "error" and
"request_id". -/
inductive Response where
  | success : String → Json → Response
  | httpError : Nat → String → Response
  | jsonError : Nat → String → String → Response

/-- Result of running the pipeline, instrumented with the two spy flags
the specification's testable properties ask about: whether the text
extractor (pypdf parse) was invoked, and whether the completion service
was invoked. -/
structure PipelineResult where
  response : Response
  extractor_invoked : Bool
  completion_invoked : Bool

/-- Rendering of a Response to the HTTP status code and JSON body the
caller observes.  The success and jsonError bodies are the explicit
dicts built by the handler itself (the returned envelope and the
JSONResponse content).  The httpError body is produced by FastAPI's
default exception handler, which renders a raised
HTTPException(status_code, detail) with the single key "detail" bound
to the detail string — app.py registers no custom exception handler, so
this framework default applies to the 401 path. -/
def render_response : Response → Nat × Json
  | Response.success request_id data =>
      (200, Json.obj [("status", Json.str "success"),
        ("request_id", Json.str request_id), ("data", data)])
  | Response.httpError code detail =>
      (code, Json.obj [("detail", Json.str detail)])
  | Response.jsonError code err request_id =>
      (code, Json.obj [("error", Json.str err), ("request_id", Json.str request_id)])

/-- The auth guard of app.py line 170: `if API_SECRET and x_api_key != API_SECRET`.
Python truthiness makes an unset or empty API_SECRET disable the check. -/
def auth_rejects (API_SECRET : Option String) (x_api_key : Option String) : Bool :=
  match API_SECRET with
  | none => false
  | some s => s != "" && x_api_key != some s

/-- Embedding of the endpoint handler extract_acord (app.py lines 161-223).
Checks run in source order: auth guard, content-type check, size check
(5 * 1024 * 1024 bytes), pypdf text extraction, empty-text check, chunk
and rejoin, completion call and json parse, success envelope.  Exceptions
raised inside the try block (pypdf parse failure, upstream completion
failure, json.loads failure) are caught by the handler's except clause and
become a 500 JSONResponse carrying the exception message, which the
Except.error branches model.  The request id is a parameter (the handler
draws it from uuid4; only its propagation matters). -/
def extract_acord (API_SECRET : Option String)
    (read_pdf : List Nat → Except String (List String))
    (complete : List (String × String) → Except String String)
    (json_loads : String → Except String Json)
    (request_id : String) (x_api_key : Option String)
    (content_type : String) (file_bytes : List Nat) : PipelineResult :=
  if auth_rejects API_SECRET x_api_key then
    ⟨Response.httpError 401 "Unauthorized", false, false⟩
  else if content_type ≠ "application/pdf" then
    ⟨Response.jsonError 400 "Only PDF files allowed" request_id, false, false⟩
  else if file_bytes.length > 5 * 1024 * 1024 then
    ⟨Response.jsonError 400 "File too large (max 5MB)" request_id, false, false⟩
  else
    match read_pdf file_bytes with
    | Except.error e => ⟨Response.jsonError 500 e request_id, true, false⟩
    | Except.ok pages =>
      let text := extract_text_from_pdf pages
      if pyStrip text = "" then
        ⟨Response.jsonError 400 "No readable text found in PDF" request_id, true, false⟩
      else
        match extract_json_from_text complete json_loads (combined_text text) with
        | Except.error e => ⟨Response.jsonError 500 e request_id, true, true⟩
        | Except.ok data => ⟨Response.success request_id data, true, true⟩

/-- Outcome of module initialisation: the process either starts (possibly
after printing warnings) or refuses to start with an error. -/
inductive StartupOutcome where
  | started : List String → StartupOutcome
  | failed : String → StartupOutcome

/-- Embedding of app.py lines 19-24: a missing (or empty, by Python
truthiness) OPENAI_API_KEY prints a warning and the module loads anyway. -/
def app_startup (OPENAI_API_KEY : Option String) : StartupOutcome :=
  if OPENAI_API_KEY.getD "" = "" then
    StartupOutcome.started ["WARNING: OPENAI_API_KEY not found"]
  else
    StartupOutcome.started []

/-- Embedding of main.py lines 9-12: a missing (or empty) OPENAI_API_KEY
raises ValueError, so the module refuses to load. -/
def main_startup (api_key : Option String) : StartupOutcome :=
  if api_key.getD "" = "" then
    StartupOutcome.failed "OPENAI_API_KEY not found in .env file"
  else
    StartupOutcome.started []

/-- The nine required fields of main.py validate_output. -/
def required_fields : List String :=
  ["agency_name", "insured_name", "insured_address", "policy_start_date",
   "policy_end_date", "state", "liability_limit", "class_code",
   "business_description"]

/-- Embedding of main.py validate_output: for each required field missing
from the dict, assign None to it.  CPython dict assignment of a fresh key
appends it in insertion order, which the association-list append models;
`field not in data` is the lookup test. -/
def validate_output (data : List (String × Json)) : List (String × Json) :=
  required_fields.foldl
    (fun d field => if (d.lookup field).isSome then d else d ++ [(field, Json.null)]) data

/-- C9: for every string s and every chunk size n > 0, concatenating the
chunks of chunk_text s n with no separator reproduces s exactly, every
chunk except possibly the last has length exactly n, the last chunk is
non-empty, and chunk_text returns the empty list exactly when s is
empty. -/
theorem chunk_text_spec (s : List Char) (n : Nat) (h : 0 < n) :
    (chunk_text s n).flatten = s ∧
    (∀ c ∈ (chunk_text s n).dropLast, c.length = n) ∧
    (∀ c, (chunk_text s n).getLast? = some c → c ≠ []) ∧
    (chunk_text s n = [] ↔ s = []) := by
  refine ⟨chunk_text_flatten h s, chunk_text_dropLast_length h s, ?_,
    chunk_text_eq_nil_iff h s⟩
  intro c hc
  obtain ⟨hne, hcl⟩ := List.mem_getLast?_eq_getLast (l := chunk_text s n) (x := c) hc
  exact chunk_text_ne_nil h s c (hcl ▸ List.getLast_mem hne)

/-- Witness for chunk_text_spec at s = "abcde", n = 2. -/
theorem chunk_text_spec_witness :
    (chunk_text ['a', 'b', 'c', 'd', 'e'] 2).flatten = ['a', 'b', 'c', 'd', 'e'] ∧
    (∀ c ∈ (chunk_text ['a', 'b', 'c', 'd', 'e'] 2).dropLast, c.length = 2) ∧
    (∀ c, (chunk_text ['a', 'b', 'c', 'd', 'e'] 2).getLast? = some c → c ≠ []) ∧
    (chunk_text ['a', 'b', 'c', 'd', 'e'] 2 = [] ↔ ['a', 'b', 'c', 'd', 'e'] = ([] : List Char)) :=
  chunk_text_spec ['a', 'b', 'c', 'd', 'e'] 2 (by decide)

/-- C1 counterexample: the chunk/rejoin step is NOT a pass-through for
every text.  For a 3001-character extracted text ("a" repeated 3001
times), "\n".join(chunk_text(text)) inserts a newline between the two
chunks, so the text sent to the completion invoker differs from the
extractor's output. -/
theorem chunk_rejoin_not_passthrough_cex :
    combined_text (String.mk (List.replicate 3001 'a')) ≠ String.mk (List.replicate 3001 'a') := by
  have hne : (List.replicate 3001 'a' : List Char) ≠ [] :=
    List.length_pos.mp (by rw [List.length_replicate]; norm_num)
  have hchunk : chunk_text (List.replicate 3001 'a') 3000
      = [List.replicate 3000 'a', ['a']] := by
    rw [chunk_text_cons (by norm_num) _ hne, List.take_replicate, List.drop_replicate]
    norm_num
    rw [chunk_text_cons (by norm_num) ['a'] (by decide),
      List.take_of_length_le (by decide), List.drop_eq_nil_of_le (by decide), chunk_text_nil]
  intro h
  have hdata := congrArg String.data h
  have hlen := congrArg List.length hdata
  simp only [combined_text, CHUNK_SIZE] at hlen
  rw [hchunk] at hlen
  have hint : List.intercalate ['\n'] [List.replicate 3000 'a', ['a']]
      = List.replicate 3000 'a' ++ '\n' :: ['a'] := by
    simp only [List.intercalate, List.intersperse_cons₂, List.intersperse_singleton,
      List.flatten_cons, List.flatten_nil, List.append_nil, List.singleton_append]
  rw [hint, List.length_append, List.length_replicate, List.length_replicate] at hlen
  simp only [List.length_cons, List.length_singleton] at hlen
  omega

/-- C1 as amended: the chunk/rejoin step is a pass-through exactly for
extracted texts of at most CHUNK_SIZE = 3000 characters (at most one
chunk is produced, so the newline join changes nothing); for longer texts
a newline is inserted between consecutive chunks. -/
theorem chunk_rejoin_passthrough_of_le (text : String)
    (h : text.data.length ≤ CHUNK_SIZE) : combined_text text = text := by
  unfold combined_text
  by_cases ht : text.data = []
  · rw [ht, chunk_text_nil]
    have h1 : List.intercalate ['\n'] ([] : List (List Char)) = [] := by
      simp [List.intercalate]
    rw [h1, ← ht]
  · rw [chunk_text_cons (by norm_num [CHUNK_SIZE]) _ ht,
      List.take_of_length_le h, List.drop_eq_nil_of_le h, chunk_text_nil]
    have h1 : List.intercalate ['\n'] [text.data] = text.data := by
      simp [List.intercalate]
    rw [h1]

/-- Witness for chunk_rejoin_passthrough_of_le at the 2-character text "hi". -/
theorem chunk_rejoin_passthrough_of_le_witness :
    combined_text (String.mk ['h', 'i']) = String.mk ['h', 'i'] :=
  chunk_rejoin_passthrough_of_le (String.mk ['h', 'i']) (by decide)

/-- C8: when the completion-service credential is absent at startup, the
served variant (app.py) records a warning and starts anyway, while the
offline variant (main.py) fails with a ValueError and refuses to start. -/
theorem startup_divergence_spec :
    app_startup none = StartupOutcome.started ["WARNING: OPENAI_API_KEY not found"] ∧
    main_startup none = StartupOutcome.failed "OPENAI_API_KEY not found in .env file" := by
  exact ⟨rfl, rfl⟩

theorem string_join_cons (s : String) (l : List String) :
    String.join (s :: l) = s ++ String.join l := by
  rw [String.join_eq, String.join_eq]
  rfl

theorem extract_text_from_pdf_foldl (pages : List String) (acc : String) :
    pages.foldl (fun text extracted =>
        if extracted ≠ "" then text ++ extracted ++ "\n" else text) acc
      = acc ++ String.join ((pages.filter (fun p => p ≠ "")).map (fun p => p ++ "\n")) := by
  induction pages generalizing acc with
  | nil =>
      rw [List.foldl_nil, List.filter_nil, List.map_nil]
      exact (String.append_empty acc).symm
  | cons p ps ih =>
      by_cases hp : p = ""
      · subst hp
        rw [List.foldl_cons, if_neg (by simp)]
        have h1 : List.filter (fun p => decide (p ≠ "")) ("" :: ps)
            = List.filter (fun p => decide (p ≠ "")) ps := by
          rw [List.filter_cons]; simp
        rw [h1]
        exact ih acc
      · rw [List.foldl_cons, if_pos hp]
        have h1 : List.filter (fun p => decide (p ≠ "")) (p :: ps)
            = p :: List.filter (fun p => decide (p ≠ "")) ps := by
          rw [List.filter_cons]; simp [hp]
        rw [h1, List.map_cons, string_join_cons, ih (acc ++ p ++ "\n")]
        simp [String.append_assoc]

/-- C4: the extractor's output is the per-page texts in page order, each
followed by a newline, with pages yielding no extractable text
contributing nothing; in particular a 2-page PDF extracting "Hello" and
"World" yields exactly "Hello\nWorld\n". -/
theorem extract_text_spec (pages : List String) :
    extract_text_from_pdf pages
      = String.join ((pages.filter (fun p => p ≠ "")).map (fun p => p ++ "\n")) ∧
    extract_text_from_pdf ["Hello", "World"] = "Hello\nWorld\n" := by
  constructor
  · unfold extract_text_from_pdf
    rw [extract_text_from_pdf_foldl]
    rfl
  · rfl

/-- C2: with the authorization check passing, the remaining request checks
run in order media type then size, each short-circuiting: a request whose
declared content-type is not application/pdf gets the 400 "Only PDF files
allowed" rejection whatever its bytes are, and a PDF-typed request whose
byte length exceeds 5 MiB gets the 400 "File too large (max 5MB)"
rejection; in both cases the text extractor is never invoked (the
extractor flag is false and the result does not depend on read_pdf, so
this holds whether or not the bytes are a valid PDF). -/
theorem request_checks_order_spec
    (API_SECRET : Option String)
    (read_pdf : List Nat → Except String (List String))
    (complete : List (String × String) → Except String String)
    (json_loads : String → Except String Json)
    (request_id : String) (x_api_key : Option String)
    (hauth : auth_rejects API_SECRET x_api_key = false)
    (ct : String) (hct : ct ≠ "application/pdf")
    (bytes1 bytes2 : List Nat) (hsz : bytes2.length > 5 * 1024 * 1024) :
    extract_acord API_SECRET read_pdf complete json_loads request_id x_api_key ct bytes1
      = ⟨Response.jsonError 400 "Only PDF files allowed" request_id, false, false⟩ ∧
    extract_acord API_SECRET read_pdf complete json_loads request_id x_api_key
        "application/pdf" bytes2
      = ⟨Response.jsonError 400 "File too large (max 5MB)" request_id, false, false⟩ := by
  constructor
  · unfold extract_acord
    rw [hauth]
    simp [hct]
  · unfold extract_acord
    rw [hauth]
    simp [hsz]

/-- Witness for request_checks_order_spec: no secret configured, a
text/plain request with tiny body, and an application/pdf request of
5 MiB + 1 zero bytes. -/
theorem request_checks_order_spec_witness :
    extract_acord none (fun _ => Except.error "bad pdf") (fun _ => Except.error "no net")
        (fun _ => Except.error "no parse") "rid-c2" none "text/plain" [0]
      = ⟨Response.jsonError 400 "Only PDF files allowed" "rid-c2", false, false⟩ ∧
    extract_acord none (fun _ => Except.error "bad pdf") (fun _ => Except.error "no net")
        (fun _ => Except.error "no parse") "rid-c2" none
        "application/pdf" (List.replicate (5 * 1024 * 1024 + 1) 0)
      = ⟨Response.jsonError 400 "File too large (max 5MB)" "rid-c2", false, false⟩ :=
  request_checks_order_spec none (fun _ => Except.error "bad pdf")
    (fun _ => Except.error "no net") (fun _ => Except.error "no parse") "rid-c2" none rfl
    "text/plain" (by decide) [0] (List.replicate (5 * 1024 * 1024 + 1) 0)
    (by rw [List.length_replicate]; omega)

/-- C3 counterexample: the 401 response does not carry the body keyed
"error".  At a concrete request with secret "s3cr3t" configured and the
x-api-key header omitted, the code raises HTTPException(401,
"Unauthorized"), and the rendered body binds the key "detail" — not
"error" — to "Unauthorized", so the claimed response body is not what
the program sends. -/
theorem auth_401_body_cex :
    render_response (extract_acord (some "s3cr3t") (fun _ => Except.ok ["Hello"])
        (fun _ => Except.ok "ok") (fun _ => Except.ok Json.null) "rid-c3cex" none
        "application/pdf" []).response
      ≠ (401, Json.obj [("error", Json.str "Unauthorized")]) := by
  have h1 : render_response (extract_acord (some "s3cr3t") (fun _ => Except.ok ["Hello"])
        (fun _ => Except.ok "ok") (fun _ => Except.ok Json.null) "rid-c3cex" none
        "application/pdf" []).response
      = (401, Json.obj [("detail", Json.str "Unauthorized")]) := rfl
  rw [h1]
  intro h
  simp only [Prod.mk.injEq, Json.obj.injEq, List.cons.injEq] at h
  exact absurd h.2.1.1 (by decide)

/-- C3 as amended: when a non-empty shared secret is configured (Python
treats an empty API_SECRET as absent) and the caller's x-api-key header
is omitted or differs from it, every request to the endpoint returns
status 401 with body binding "detail" to "Unauthorized" — FastAPI's
rendering of the raised HTTPException; the key is "detail", not the
claimed "error" — and neither the extractor nor the completion service
is ever called, whatever the content-type and body; when no secret is
configured the authorization check is disabled and no request at all
produces the 401 response. -/
theorem auth_check_amended_spec (s : String) (hs : s ≠ "")
    (x_api_key : Option String) (hkey : x_api_key ≠ some s)
    (read_pdf : List Nat → Except String (List String))
    (complete : List (String × String) → Except String String)
    (json_loads : String → Except String Json)
    (request_id : String) (ct : String) (bytes : List Nat)
    (read_pdf2 : List Nat → Except String (List String))
    (complete2 : List (String × String) → Except String String)
    (json_loads2 : String → Except String Json)
    (request_id2 : String) (key2 : Option String) (ct2 : String) (bytes2 : List Nat) :
    (extract_acord (some s) read_pdf complete json_loads request_id x_api_key ct bytes
      = ⟨Response.httpError 401 "Unauthorized", false, false⟩ ∧
     render_response (extract_acord (some s) read_pdf complete json_loads request_id
         x_api_key ct bytes).response
      = (401, Json.obj [("detail", Json.str "Unauthorized")])) ∧
    (extract_acord none read_pdf2 complete2 json_loads2 request_id2 key2 ct2 bytes2).response
      ≠ Response.httpError 401 "Unauthorized" := by
  have hmain : extract_acord (some s) read_pdf complete json_loads request_id x_api_key
      ct bytes = ⟨Response.httpError 401 "Unauthorized", false, false⟩ := by
    unfold extract_acord
    have hr : auth_rejects (some s) x_api_key = true := by
      simp [auth_rejects, hs, hkey]
    rw [hr]
    simp
  refine ⟨⟨hmain, by rw [hmain]; rfl⟩, ?_⟩
  unfold extract_acord
  rw [show auth_rejects none key2 = false from rfl]
  simp only [Bool.false_eq_true, if_false]
  repeat' split
  all_goals simp

/-- Witness for auth_check_amended_spec: secret "s3cr3t" with the header
omitted, and for the disabled-check half a no-secret request that
succeeds. -/
theorem auth_check_amended_spec_witness :
    (extract_acord (some "s3cr3t") (fun _ => Except.ok ["Hello"]) (fun _ => Except.ok "ok")
        (fun _ => Except.ok Json.null) "rid-c3" none "application/pdf" []
      = ⟨Response.httpError 401 "Unauthorized", false, false⟩ ∧
     render_response (extract_acord (some "s3cr3t") (fun _ => Except.ok ["Hello"])
         (fun _ => Except.ok "ok") (fun _ => Except.ok Json.null) "rid-c3" none
         "application/pdf" []).response
      = (401, Json.obj [("detail", Json.str "Unauthorized")])) ∧
    (extract_acord none (fun _ => Except.ok ["Hello"]) (fun _ => Except.ok "ok")
        (fun _ => Except.ok Json.null) "rid-c3b" none "application/pdf" []).response
      ≠ Response.httpError 401 "Unauthorized" :=
  auth_check_amended_spec "s3cr3t" (by decide) none (by decide)
    (fun _ => Except.ok ["Hello"]) (fun _ => Except.ok "ok") (fun _ => Except.ok Json.null)
    "rid-c3" "application/pdf" []
    (fun _ => Except.ok ["Hello"]) (fun _ => Except.ok "ok") (fun _ => Except.ok Json.null)
    "rid-c3b" none "application/pdf" []

/-- C5: for a request that passes authorization, media-type and size
checks but whose PDF yields only empty or whitespace-only text, the
pipeline answers 400 "No readable text found in PDF" with the request id,
and the completion service is never called. -/
theorem no_readable_text_spec
    (API_SECRET : Option String) (x_api_key : Option String)
    (hauth : auth_rejects API_SECRET x_api_key = false)
    (read_pdf : List Nat → Except String (List String))
    (bytes : List Nat) (hsz : bytes.length ≤ 5 * 1024 * 1024)
    (pages : List String) (hrp : read_pdf bytes = Except.ok pages)
    (hws : pyStrip (extract_text_from_pdf pages) = "")
    (complete : List (String × String) → Except String String)
    (json_loads : String → Except String Json) (request_id : String) :
    extract_acord API_SECRET read_pdf complete json_loads request_id x_api_key
        "application/pdf" bytes
      = ⟨Response.jsonError 400 "No readable text found in PDF" request_id, true, false⟩ := by
  have hsz2 : ¬ bytes.length > 5 * 1024 * 1024 := by omega
  unfold extract_acord
  rw [hauth, hrp]
  simp [hsz2, hws]

/-- Witness for no_readable_text_spec: a PDF whose two pages extract to
nothing and to whitespace. -/
theorem no_readable_text_spec_witness :
    extract_acord none (fun _ => Except.ok ["", "  "]) (fun _ => Except.ok "ok")
        (fun _ => Except.ok Json.null) "rid-c5" none "application/pdf" [1, 2, 3]
      = ⟨Response.jsonError 400 "No readable text found in PDF" "rid-c5", true, false⟩ :=
  no_readable_text_spec none none rfl (fun _ => Except.ok ["", "  "]) [1, 2, 3]
    (by decide) ["", "  "] rfl (by decide) (fun _ => Except.ok "ok")
    (fun _ => Except.ok Json.null) "rid-c5"

/-- C6: round-trip through the relay.  For a request that passes
validation and extraction, if the (stubbed) completion service returns a
text that json.loads parses to an object, the endpoint returns the 200
success envelope carrying the request id and exactly that parsed object,
unmodified. -/
theorem relay_roundtrip_spec
    (API_SECRET : Option String) (x_api_key : Option String)
    (hauth : auth_rejects API_SECRET x_api_key = false)
    (read_pdf : List Nat → Except String (List String))
    (bytes : List Nat) (hsz : bytes.length ≤ 5 * 1024 * 1024)
    (pages : List String) (hrp : read_pdf bytes = Except.ok pages)
    (hws : ¬ pyStrip (extract_text_from_pdf pages) = "")
    (modelText : String)
    (complete : List (String × String) → Except String String)
    (hc : ∀ msgs, complete msgs = Except.ok modelText)
    (obj : Json) (json_loads : String → Except String Json)
    (hj : json_loads modelText = Except.ok obj) (request_id : String) :
    extract_acord API_SECRET read_pdf complete json_loads request_id x_api_key
        "application/pdf" bytes
      = ⟨Response.success request_id obj, true, true⟩ := by
  have hsz2 : ¬ bytes.length > 5 * 1024 * 1024 := by omega
  unfold extract_acord extract_json_from_text
  rw [hauth, hrp]
  simp [hsz2, hws, hc, hj]

/-- Witness for relay_roundtrip_spec: a one-page PDF extracting "Hello"
and a stubbed completion service echoing the empty JSON object. -/
theorem relay_roundtrip_spec_witness :
    extract_acord none (fun _ => Except.ok ["Hello"]) (fun _ => Except.ok "\x7b\x7d")
        (fun _ => Except.ok (Json.obj [])) "rid-c6" none "application/pdf" [1]
      = ⟨Response.success "rid-c6" (Json.obj []), true, true⟩ :=
  relay_roundtrip_spec none none rfl (fun _ => Except.ok ["Hello"]) [1] (by decide)
    ["Hello"] rfl (by decide) "\x7b\x7d" (fun _ => Except.ok "\x7b\x7d") (fun _ => rfl)
    (Json.obj []) (fun _ => Except.ok (Json.obj [])) rfl "rid-c6"

/-- C7: for a request that passes validation and extraction, if the
completion service returns text that json.loads rejects, the pipeline
returns a 500 response carrying the decode-error message and the request
id (the MalformedModelOutput-class failure of the spec), rather than
crashing: the handler's except clause turns the raised exception into a
JSONResponse. -/
theorem malformed_model_output_spec
    (API_SECRET : Option String) (x_api_key : Option String)
    (hauth : auth_rejects API_SECRET x_api_key = false)
    (read_pdf : List Nat → Except String (List String))
    (bytes : List Nat) (hsz : bytes.length ≤ 5 * 1024 * 1024)
    (pages : List String) (hrp : read_pdf bytes = Except.ok pages)
    (hws : ¬ pyStrip (extract_text_from_pdf pages) = "")
    (modelText : String)
    (complete : List (String × String) → Except String String)
    (hc : ∀ msgs, complete msgs = Except.ok modelText)
    (msg : String) (json_loads : String → Except String Json)
    (hj : json_loads modelText = Except.error msg) (request_id : String) :
    extract_acord API_SECRET read_pdf complete json_loads request_id x_api_key
        "application/pdf" bytes
      = ⟨Response.jsonError 500 msg request_id, true, true⟩ := by
  have hsz2 : ¬ bytes.length > 5 * 1024 * 1024 := by omega
  unfold extract_acord extract_json_from_text
  rw [hauth, hrp]
  simp [hsz2, hws, hc, hj]

/-- Witness for malformed_model_output_spec: the stubbed completion
service returns non-JSON text and json.loads fails with the standard
JSONDecodeError message. -/
theorem malformed_model_output_spec_witness :
    extract_acord none (fun _ => Except.ok ["Hello"]) (fun _ => Except.ok "not json")
        (fun _ => Except.error "Expecting value: line 1 column 1 (char 0)")
        "rid-c7" none "application/pdf" [1]
      = ⟨Response.jsonError 500 "Expecting value: line 1 column 1 (char 0)" "rid-c7",
          true, true⟩ :=
  malformed_model_output_spec none none rfl (fun _ => Except.ok ["Hello"]) [1] (by decide)
    ["Hello"] rfl (by decide) "not json" (fun _ => Except.ok "not json") (fun _ => rfl)
    "Expecting value: line 1 column 1 (char 0)"
    (fun _ => Except.error "Expecting value: line 1 column 1 (char 0)") rfl "rid-c7"

theorem lookup_append_of_some {k : String} {v : Json} (d l : List (String × Json))
    (h : d.lookup k = some v) : (d ++ l).lookup k = some v := by
  induction d with
  | nil => simp [List.lookup] at h
  | cons a d ih =>
      obtain ⟨ka, va⟩ := a
      rw [List.lookup_cons] at h
      rw [List.cons_append, List.lookup_cons]
      cases hk : (k == ka) with
      | false =>
          rw [hk] at h
          simp only []
          exact ih h
      | true =>
          rw [hk] at h
          exact h

theorem lookup_append_of_none {k : String} (d l : List (String × Json))
    (h : d.lookup k = none) : (d ++ l).lookup k = l.lookup k := by
  induction d with
  | nil => rfl
  | cons a d ih =>
      obtain ⟨ka, va⟩ := a
      rw [List.lookup_cons] at h
      rw [List.cons_append, List.lookup_cons]
      cases hk : (k == ka) with
      | false =>
          rw [hk] at h
          simp only []
          exact ih h
      | true =>
          rw [hk] at h
          cases h

theorem validate_foldl_lookup_some (fields : List String) (d : List (String × Json))
    {k : String} {v : Json} (h : d.lookup k = some v) :
    (fields.foldl (fun d field =>
        if (d.lookup field).isSome then d else d ++ [(field, Json.null)]) d).lookup k
      = some v := by
  induction fields generalizing d with
  | nil => exact h
  | cons f fs ih =>
      rw [List.foldl_cons]
      apply ih
      by_cases hf : (d.lookup f).isSome
      · rw [if_pos hf]; exact h
      · rw [if_neg hf]; exact lookup_append_of_some d _ h

theorem validate_foldl_lookup_none (fields : List String) (d : List (String × Json))
    {k : String} (h : d.lookup k = none) (hk : k ∉ fields) :
    (fields.foldl (fun d field =>
        if (d.lookup field).isSome then d else d ++ [(field, Json.null)]) d).lookup k
      = none := by
  induction fields generalizing d with
  | nil => exact h
  | cons f fs ih =>
      have hkf : k ≠ f := fun he => hk (he ▸ List.mem_cons_self f fs)
      rw [List.foldl_cons]
      refine ih _ ?_ (fun hm => hk (List.mem_cons_of_mem f hm))
      by_cases hf : (d.lookup f).isSome
      · rw [if_pos hf]; exact h
      · rw [if_neg hf, lookup_append_of_none d _ h, List.lookup_cons,
          beq_eq_false_iff_ne.mpr hkf]
        rfl

theorem validate_foldl_mem_null (fields : List String) (d : List (String × Json))
    {k : String} (hmem : k ∈ fields) (h : d.lookup k = none) :
    (fields.foldl (fun d field =>
        if (d.lookup field).isSome then d else d ++ [(field, Json.null)]) d).lookup k
      = some Json.null := by
  induction fields generalizing d with
  | nil => cases hmem
  | cons f fs ih =>
      rw [List.foldl_cons]
      by_cases hkf : k = f
      · subst hkf
        rw [if_neg (by rw [h]; exact Bool.false_ne_true)]
        apply validate_foldl_lookup_some
        rw [lookup_append_of_none d _ h, List.lookup_cons, beq_self_eq_true k]
      · have hmem2 : k ∈ fs := by
          rcases List.mem_cons.mp hmem with h1 | h1
          · exact absurd h1 hkf
          · exact h1
        refine ih _ hmem2 ?_
        by_cases hf : (d.lookup f).isSome
        · rw [if_pos hf]; exact h
        · rw [if_neg hf, lookup_append_of_none d _ h, List.lookup_cons,
            beq_eq_false_iff_ne.mpr hkf]
          rfl

theorem validate_foldl_isSome (fields : List String) (d : List (String × Json))
    {k : String} (hmem : k ∈ fields) :
    ((fields.foldl (fun d field =>
        if (d.lookup field).isSome then d else d ++ [(field, Json.null)]) d).lookup k).isSome
      = true := by
  cases hl : d.lookup k with
  | none => rw [validate_foldl_mem_null fields d hmem hl]; rfl
  | some v => rw [validate_foldl_lookup_some fields d hl]; rfl

/-- C10: validate_output ensures all nine required keys are present;
every key already present keeps its original value unchanged, a key
outside the required list that was absent stays absent (nothing else is
added), and a required key that was absent is added with value null. -/
theorem validate_output_spec (data : List (String × Json)) (k1 : String) (v1 : Json)
    (h1 : data.lookup k1 = some v1) (k2 : String) (h2 : data.lookup k2 = none) :
    (∀ f ∈ required_fields, ((validate_output data).lookup f).isSome = true) ∧
    (validate_output data).lookup k1 = some v1 ∧
    (k2 ∉ required_fields → (validate_output data).lookup k2 = none) ∧
    (k2 ∈ required_fields → (validate_output data).lookup k2 = some Json.null) := by
  unfold validate_output
  exact ⟨fun f hf => validate_foldl_isSome _ _ hf,
    validate_foldl_lookup_some _ _ h1,
    fun hnot => validate_foldl_lookup_none _ _ h2 hnot,
    fun hmem => validate_foldl_mem_null _ _ hmem h2⟩

/-- Witness for validate_output_spec on the dict containing only "state":
the present key keeps its value, and the absent required key
"agency_name" is backfilled with null. -/
theorem validate_output_spec_witness :
    (∀ f ∈ required_fields,
        ((validate_output [("state", Json.str "CA")]).lookup f).isSome = true) ∧
    (validate_output [("state", Json.str "CA")]).lookup "state" = some (Json.str "CA") ∧
    ("agency_name" ∉ required_fields →
        (validate_output [("state", Json.str "CA")]).lookup "agency_name" = none) ∧
    ("agency_name" ∈ required_fields →
        (validate_output [("state", Json.str "CA")]).lookup "agency_name"
          = some Json.null) :=
  validate_output_spec [("state", Json.str "CA")] "state" (Json.str "CA") rfl
    "agency_name" rfl
